import Mathlib

/-!
Shallow embedding of the response-orchestration engine of the
Multimodal AI Document Assistant (src/storyteller.py, src/backend.py).

External effects (network calls, hashing, the filesystem, the Whisper model)
are passed in as explicit parameters or result values; everything else is a
direct translation of the Python source.  Python string primitives that the
source uses (slicing, lower, strip, substring membership, join, re.sub
character filtering) are modelled over the code-point list backing `String`.
-/

/-- Python string slicing s[:n], by code points. -/
def pyTake (s : String) (n : Nat) : String := ⟨s.data.take n⟩

/-- Python list slicing lst[-n:]: for n = 0 Python yields the whole list,
otherwise the last n elements. -/
def pyTakeLast (n : Nat) (l : List α) : List α :=
  if n = 0 then l else l.drop (l.length - n)

/-- Python str.lower(), per code point. -/
def pyLower (s : String) : String := ⟨s.data.map Char.toLower⟩

/-- Python whitespace class (space, tab, newline, carriage return, vertical
tab, form feed) used by str.strip() and by the regex class \s. -/
def pyWhitespace (c : Char) : Bool :=
  c == ' ' || c == '\t' || c == '\n' || c == '\r' || c == '\x0b' || c == '\x0c'

/-- Python str.strip(). -/
def pyStrip (s : String) : String :=
  ⟨((s.data.dropWhile pyWhitespace).reverse.dropWhile pyWhitespace).reverse⟩

/-- Python substring membership `pat in s`, on code-point lists: some suffix
of `s` starts with `pat`. -/
def containsPat (pat s : List Char) : Bool :=
  (List.range (s.length + 1)).any (fun i => pat.isPrefixOf (s.drop i))

/-- Python substring membership `pat in s` on strings. -/
def strIn (pat s : String) : Bool := containsPat pat.data s.data

/-- Python sep.join(l). -/
def joinSep (sep : String) : List String → String
  | [] => ""
  | [x] => x
  | x :: y :: xs => x ++ sep ++ joinSep sep (y :: xs)

/-- Conversation message role.  The repository only ever constructs the
"user" and "assistant" roles (backend.py lines 199-206). -/
inductive Role where
  | user
  | assistant
deriving DecidableEq

/-- A conversation message (the {"role": ..., "content": ...} dictionaries of
backend.py and storyteller.py). -/
structure Msg where
  role : Role
  content : String
deriving DecidableEq

/-- A retrieval result as produced by semantic_search: (chunk text, source
metadata, similarity score).  Scores are embedded as exact rationals. -/
abbrev Chunk := String × String × ℚ

/-- Outcome of one awaited media subtask under
asyncio.gather(..., return_exceptions=True): either a raised exception
(carried as its message) or the value the coroutine returned. -/
inductive TaskOutcome where
  | exc (msg : String)
  | val (url : Option String)
deriving DecidableEq

/-- storyteller.py lines 140-141: `results[i] if not
isinstance(results[i], Exception) and results[i] is not None else None`. -/
def absorbOutcome : TaskOutcome → Option String
  | .exc _ => none
  | .val u => u

/-- Outcome of one HTTP call: a raised exception (message) or a response
status code.  Response bodies are raw media bytes and never influence the
URLs the engine returns, so they are not carried. -/
abbrev HttpOutcome := Except String Nat

/-- Modelled from the spec: config.SUPPORTED_LANGUAGES, the language-code to
display-name table (config.py is not part of src/).  The spec names a
language-code→display-name table, and the repository ships English, Spanish,
French, German and Hindi fallback texts, so those five codes are used here. -/
def SUPPORTED_LANGUAGES : List (String × String) :=
  [("en", "English"), ("es", "Spanish"), ("fr", "French"),
   ("de", "German"), ("hi", "Hindi")]

/-- storyteller.py line 197: config.SUPPORTED_LANGUAGES.get(language, "English"). -/
def displayName (language : String) : String :=
  ((SUPPORTED_LANGUAGES.find? (fun kv => kv.1 == language)).map Prod.snd).getD "English"

/-- storyteller.py line 199: the strongly worded instruction naming the
resolved display language. -/
def criticalInstruction (name : String) : String :=
  "\n\n**CRITICAL: You MUST respond ENTIRELY in " ++ name ++
    ". Do NOT use English. Translate everything to " ++ name ++ ".**"

/-- storyteller.py lines 196-201: the language instruction is appended for
every non-English language code and omitted for "en". -/
def langInstruction (language : String) : String :=
  if language != "en" then criticalInstruction (displayName language) else ""

/-- storyteller.py lines 203-207: base_prompt =
STORYTELLER_PROMPT.format(context=..., question=...) + lang_instruction.
The STORYTELLER_PROMPT template itself lives in config.py (not in src/), so
it is a parameter taking context and question. -/
def basePrompt (template : String → String → String)
    (context question language : String) : String :=
  template context question ++ langInstruction language

/-- storyteller.py lines 211-224: the structured message list sent to the
chat-completion provider — the last six history messages copied over, then
the new user turn carrying the composed prompt. -/
def openaiMessages (history : List Msg) (prompt : String) : List Msg :=
  let messages := (pyTakeLast 6 history).foldl
    (fun acc m => acc ++ [{ role := m.role, content := m.content }]) []
  messages ++ [{ role := Role.user, content := prompt }]

/-- storyteller.py line 243: display name of a role in the synthesized
transcript. -/
def roleDisplay : Role → String
  | .user => "User"
  | .assistant => "Assistant"

/-- storyteller.py lines 239-245: the single-prompt provider receives a
synthesized "Previous conversation:" transcript of the last six history
messages prefixed to the composed prompt (only when history is non-empty). -/
def geminiPrompt (history : List Msg) (prompt : String) : String :=
  if history.isEmpty then prompt
  else
    let historyText := (pyTakeLast 6 history).foldl
      (fun acc m => acc ++ roleDisplay m.role ++ ": " ++ m.content ++ "\n")
      "\n\nPrevious conversation:\n"
    historyText ++ "\n" ++ prompt

/-- Rendering of a message list as consecutive "Role: content" transcript
lines, used to state that the transcript carries exactly the structured
messages in order. -/
def renderTranscript : List Msg → String
  | [] => ""
  | m :: ms => roleDisplay m.role ++ ": " ++ m.content ++ "\n" ++ renderTranscript ms

/-- The configured LLM provider branch taken by _generate_text: OpenAI
chat-completion, Gemini single-prompt, or neither configured. -/
inductive Provider where
  | openai
  | gemini
  | unconfigured
deriving DecidableEq

/-- storyteller.py line 269: the user-facing apology returned when the
provider call raises, embedding str(e)[:100]. -/
def apologyMessage (e : String) : String :=
  "Oops! My wit machine broke down. Try asking again! 😅 (Error: " ++
    pyTake e 100 ++ ")"

/-- storyteller.py lines 173-269 (_generate_text).  The two provider network
calls are result-valued parameters (ok = returned content, error = raised
exception text); prompt composition and the exception handler are embedded
directly.  The Lean model is total — the only exception source inside the
Python try block is the provider call, so a call that raises yields the
apology string and nothing propagates to the caller. -/
def generate_text (template : String → String → String) (provider : Provider)
    (openaiCall : List Msg → Except String String)
    (geminiCall : String → Except String String)
    (question context language : String) (history : List Msg) : String :=
  let prompt := basePrompt template context question language
  match provider with
  | .openai =>
    match openaiCall (openaiMessages history prompt) with
    | .ok content => pyStrip content
    | .error e => apologyMessage e
  | .gemini =>
    match geminiCall (geminiPrompt history prompt) with
    | .ok content => pyStrip content
    | .error e => apologyMessage e
  | .unconfigured =>
    "Sorry, text generation is not available. Please configure LLM API key."

/-- storyteller.py lines 492-510: the fixed lowercase-keyword → scene-phrase
table, in definition order (Python dicts preserve insertion order). -/
def keywords : List (String × String) :=
  [("alice", "Alice, young Victorian girl in blue dress with white apron"),
   ("wonderland", "magical Wonderland with strange creatures and talking animals"),
   ("rabbit", "white rabbit wearing waistcoat with pocket watch, running"),
   ("queen", "Queen of Hearts with playing card soldiers, red and black"),
   ("hatter", "Mad Hatter at tea party with oversized hat, teacups everywhere"),
   ("cheshire", "Cheshire Cat with wide grin, purple stripes, disappearing"),
   ("caterpillar", "blue caterpillar smoking hookah on giant mushroom"),
   ("gulliver", "Gulliver the explorer in 18th century clothing"),
   ("lilliput", "tiny Lilliputian people, miniature buildings, giant human"),
   ("giant", "enormous giants, Brobdingnagians, tiny human"),
   ("travel", "sailing ship, ocean voyage, exotic lands"),
   ("tea party", "mad tea party with March Hare, Dormouse, chaotic table setting"),
   ("arabian", "Arabian Nights, middle eastern palace, ornate decorations"),
   ("aladdin", "Aladdin with magic lamp, genie, flying carpet"),
   ("sinbad", "Sinbad the sailor, ship, sea monsters"),
   ("scheherazade", "Scheherazade storytelling, sultan, Arabian palace"),
   ("genie", "magical genie emerging from lamp, smoke, wishes")]

/-- storyteller.py line 528: the fixed artistic-style suffix. -/
def imageStyle : String :=
  "vintage storybook illustration, detailed ink drawing with watercolor, whimsical fantasy art, Arthur Rackham style, classic children's literature, intricate details, magical atmosphere"

/-- storyteller.py lines 480-530 (_create_image_prompt): scan the keyword
table against the lowercased concatenation of question and answer, collect
every matching entry in table order, join the first three into the scene (or
use the placeholder), and append the style suffix. -/
def create_image_prompt (question answer : String) : String :=
  let combined := pyLower (question ++ " " ++ answer)
  let found := (keywords.filter (fun kv => strIn kv.1 combined)).map Prod.snd
  let scene :=
    if found.isEmpty then "classic storybook scene" else joinSep ", " (found.take 3)
  scene ++ ", " ++ imageStyle

/-- The byte budget applied by the degraded prompt path
(storyteller.py line 337, prompt[:800]). -/
def maxImagePromptLen : Nat := 800

/-- The image prompt exactly as §4.4 of the spec words it: a fixed
lowercase-keyword → phrase mapping scanned against the lowercased
concatenation of question and answer, ALL matching keywords collected in
table-definition order, the first three matches joined into the scene
description, a fixed artistic-style suffix appended, a generic
"classic storybook scene" placeholder when no keyword matches, and the final
prompt string truncated to a fixed maximum length before submission. -/
def specImagePrompt (question answer : String) : String :=
  let combined := pyLower (question ++ " " ++ answer)
  let collected := keywords.filterMap
    (fun kv => if strIn kv.1 combined then some kv.2 else none)
  let scene :=
    if collected = [] then "classic storybook scene"
    else joinSep ", " (collected.take 3)
  pyTake (scene ++ ", " ++ imageStyle) maxImagePromptLen

/-- storyteller.py lines 271-320 (_generate_image).  The Pollinations HTTP
call appears as a status-valued parameter and hashlib.md5 as a hex-digest
function parameter.  The _create_image_prompt_from_answer fallback branch
(lines 291-293) is unreachable in this total model because
create_image_prompt never raises. -/
def generate_image (md5Hex : String → String) (imageEnabled : Bool)
    (question answer : String) (resp : HttpOutcome) : Option String :=
  if !imageEnabled then none
  else
    let prompt := create_image_prompt question answer
    match resp with
    | .error _ => none
    | .ok status =>
      if status == 200 then some ("/static/images/" ++ md5Hex prompt ++ ".png")
      else none

/-- The character class kept by re.sub(r'[^\w\s.,!?\x27\x22-]', '', text)
at storyteller.py line 363: word characters (modelled as ASCII alphanumerics
plus underscore), whitespace, and the listed punctuation. -/
def keepChar (c : Char) : Bool :=
  c.isAlphanum || c == '_' || pyWhitespace c || c == '.' || c == ',' ||
    c == '!' || c == '?' || c == '\'' || c == '"' || c == '-'

/-- storyteller.py line 363: the cleaned narration text — the answer after
stripping every character outside the kept class. -/
def cleanTTSText (s : String) : String := ⟨s.data.filter keepChar⟩

/-- storyteller.py lines 339-409 (_generate_audio).  The ElevenLabs POST is a
status-valued parameter and hashlib.md5 a hex-digest parameter; the stored
file name is the digest of the full cleaned text (the request body sends only
clean_text[:500], which does not affect the returned URL). -/
def generate_audio (md5Hex : String → String) (apiKeySet audioEnabled : Bool)
    (text language : String) (resp : HttpOutcome) : Option String :=
  if !apiKeySet then none
  else if !audioEnabled then none
  else
    let clean := cleanTTSText text
    if clean.length == 0 then none
    else
      let _modelId : String :=
        if language != "en" then "eleven_multilingual_v2" else "eleven_monolingual_v1"
      match resp with
      | .error _ => none
      | .ok status =>
        if status != 200 then none
        else some ("/static/audio/" ++ md5Hex clean ++ ".mp3")

/-- Modelled from the spec: config.UNKNOWN_QUERY_RESPONSE, the pre-authored
English fallback message (config.py is not part of src/; no claim constrains
its exact wording). -/
def UNKNOWN_QUERY_RESPONSE : String :=
  "Whoa, hold on! 🤚 That is not in my storybook collection. Ask me something from the classic stories I actually know! 📚✨"

/-- storyteller.py lines 162-171 (_get_fallback_message): a table keyed by
language code, defaulting to the English entry. -/
def get_fallback_message (language : String) : String :=
  let fallbacks : List (String × String) :=
    [("en", UNKNOWN_QUERY_RESPONSE),
     ("es", "¡Espera, detente! 🤚 Eso no está en mi colección de cuentos. Estoy aquí para contar historias sobre las aventuras de Alicia en el país de las maravillas y los problemas gigantes de Gulliver, ¡no para resolver los misterios del universo! Pregúntame algo de los cuentos clásicos que realmente conozco! 📚✨"),
     ("fr", "Whoa, arrêtez! 🤚 Ce n'est pas dans ma collection de livres d'histoires. Je suis ici pour raconter des histoires sur les aventures d'Alice au pays des merveilles et les problèmes géants de Gulliver - pas pour résoudre les mystères de l'univers! Demandez-moi quelque chose des histoires classiques que je connais vraiment! 📚✨"),
     ("de", "Moment mal! 🤚 Das ist nicht in meiner Geschichtenbuch-Sammlung. Ich bin hier, um Geschichten über Alices Abenteuer im Wunderland und Gullivers Riesenprobleme zu erzählen - nicht um die Geheimnisse des Universums zu lösen! Frag mich etwas aus den klassischen Geschichten, die ich wirklich kenne! 📚✨"),
     ("hi", "रुको, ठहरो! 🤚 यह मेरी कहानियों के संग्रह में नहीं है। मैं यहाँ एलिस के अद्भुत देश के रोमांच और गुलिवर की विशाल समस्याओं की कहानियाँ सुनाने के लिए हूँ - ब्रह्मांड के रहस्यों को सुलझाने के लिए नहीं! मुझसे उन क्लासिक कहानियों के बारे में पूछें जो मैं वास्तव में जानता हूँ! 📚✨")]
  ((fallbacks.find? (fun kv => kv.1 == language)).map Prod.snd).getD
    UNKNOWN_QUERY_RESPONSE

/-- storyteller.py lines 151-160 (_is_relevant): empty retrieval yields
false, otherwise relevant iff the mean similarity score exceeds 0.25. -/
def is_relevant (results : List Chunk) : Bool :=
  if results.isEmpty then false
  else
    decide ((results.map (fun r => r.2.2)).sum / (results.length : ℚ) > 0.25)

/-- Python f-string "{score:.2f}" formatting, modelled on exact rationals:
round to the nearest hundredth with ties to even, then print two decimals. -/
def roundHundredths (q : ℚ) : ℤ :=
  let s := q * 100
  if s - ⌊s⌋ > 1 / 2 then ⌊s⌋ + 1
  else if s - ⌊s⌋ < 1 / 2 then ⌊s⌋
  else if ⌊s⌋ % 2 = 0 then ⌊s⌋ else ⌊s⌋ + 1

/-- Two-decimal rendering of a similarity score (storyteller.py line 117). -/
def formatScore (q : ℚ) : String :=
  let n := roundHundredths q
  let sign := if n < 0 then "-" else ""
  let m := n.natAbs
  let frac := m % 100
  sign ++ toString (m / 100) ++ "." ++ (if frac < 10 then "0" else "") ++ toString frac

/-- One entry of the sources list (storyteller.py lines 113-120). -/
structure SourceEntry where
  text : String
  source : String
  score : String
deriving DecidableEq

/-- The dictionary generate_response returns (storyteller.py lines 103-109
and 143-149). -/
structure ChatResult where
  answer : String
  image_url : Option String
  audio_url : Option String
  is_relevant : Bool
  sources : List SourceEntry
deriving DecidableEq

/-- storyteller.py lines 55-149 (generate_response).  The semantic-search
result, the provider calls and the four awaited media-task outcomes (the
gathered image/audio tasks of the full pipeline — see generate_image and
generate_audio for what each subtask produces — and the try/except-guarded
attempts of the fallback branch) are parameters; branching, absorption of
media failures and assembly are embedded directly.  The function is total,
so generate_response never raises. -/
def generate_response
    (template : String → String → String)
    (provider : Provider)
    (openaiCall : List Msg → Except String String)
    (geminiCall : String → Except String String)
    (question language : String) (history : List Msg)
    (genImage genAudio imageEnabled audioEnabled : Bool)
    (results : List Chunk)
    (imageTask audioTask fbImageTask fbAudioTask : TaskOutcome) : ChatResult :=
  if !(is_relevant results) then
    let fallback := get_fallback_message language
    let image_url :=
      if genImage && imageEnabled then absorbOutcome fbImageTask else none
    let audio_url :=
      if genAudio && audioEnabled then absorbOutcome fbAudioTask else none
    { answer := fallback, image_url := image_url, audio_url := audio_url,
      is_relevant := false, sources := [] }
  else
    let context := joinSep "\n\n" (results.map (fun r => r.1))
    let sources := results.map (fun r =>
      ({ text := pyTake r.1 200 ++ "...", source := r.2.1,
         score := formatScore r.2.2 } : SourceEntry))
    let answer :=
      generate_text template provider openaiCall geminiCall question context
        language history
    let imageRes :=
      if genImage && imageEnabled then imageTask else TaskOutcome.val none
    let audioRes :=
      if genAudio && audioEnabled then audioTask else TaskOutcome.val none
    { answer := answer, image_url := absorbOutcome imageRes,
      audio_url := absorbOutcome audioRes, is_relevant := true,
      sources := sources }

/-- backend.py lines 198-212: append the new (user, assistant) turn to the
session history, then trim to the last MAX_CONVERSATION_HISTORY * 2 messages
(Python list[-n:]).  MAX_CONVERSATION_HISTORY lives in config.py (not in
src/), so it is the parameter maxHist. -/
def updateHistory (maxHist : Nat) (history : List Msg)
    (question answer : String) : List Msg :=
  let h2 := history ++ [{ role := Role.user, content := question },
                        { role := Role.assistant, content := answer }]
  if h2.length > maxHist * 2 then pyTakeLast (maxHist * 2) h2 else h2

/-- The stored history of one session after a sequence of chat turns,
starting from the lazily created empty session (backend.py lines 183-212);
each turn carries the question and the generated answer. -/
def runChat (maxHist : Nat) (turns : List (String × String)) : List Msg :=
  turns.foldl (fun h t => updateHistory maxHist h t.1 t.2) []

/-- The untrimmed transcript of a sequence of turns: one
(user, assistant) message pair per turn, in order. -/
def transcript (turns : List (String × String)) : List Msg :=
  (turns.map (fun t => [({ role := Role.user, content := t.1 } : Msg),
                        ({ role := Role.assistant, content := t.2 } : Msg)])).flatten

/-- storyteller.py lines 411-478 (transcribe_audio).  File-system facts
(existence, size), FFmpeg availability and the Whisper inference call are
parameters; Except.error models a raised exception.  The guard on the Whisper
model (lines 421-423) sits outside the try block; every error raised inside
the try body is rewritten by the handler at lines 468-478. -/
def transcribe_audio (whisperLoaded : Bool) (audioPath : String)
    (fileExists : Bool) (fileSize : Nat) (ffmpegFound : Bool)
    (whisperResult : Except String String) : Except String String :=
  if !whisperLoaded then Except.error "Whisper model not initialized"
  else
    let body : Except String String :=
      if !fileExists then Except.error ("Audio file not found: " ++ audioPath)
      else if fileSize < 1000 then
        Except.ok "Recording too short or empty. Please speak clearly for at least 1-2 seconds."
      else if !ffmpegFound then
        Except.error "FFmpeg not found. Please install FFmpeg and add it to your system PATH, then restart the backend."
      else
        match whisperResult with
        | .error e => Except.error e
        | .ok t =>
          let text := pyStrip t
          if text == "" then
            Except.ok "Sorry, I couldn't hear anything clearly. Please speak louder and try again."
          else Except.ok text
    match body with
    | .ok t => Except.ok t
    | .error e =>
      if strIn "ffmpeg" (pyLower e) || strIn "av" (pyLower e) then
        Except.error "FFmpeg not found. Please install FFmpeg to use audio transcription. Download from: https://ffmpeg.org/download.html"
      else Except.error ("Transcription failed: " ++ e)

/-! ### Helper lemmas -/

/-- Python s[:n] is the identity when the string already fits the budget. -/
theorem pyTake_of_le (s : String) (n : Nat) (h : s.length ≤ n) : pyTake s n = s := by
  unfold pyTake
  have hd : s.data.take n = s.data := List.take_of_length_le h
  rw [hd]

/-- A list is a Boolean prefix of itself followed by anything. -/
theorem isPrefixOf_append_self (l m : List Char) : l.isPrefixOf (l ++ m) = true := by
  induction l with
  | nil => simp [List.isPrefixOf]
  | cons a t ih => simp [List.isPrefixOf, ih]

/-- Exhibiting a split of the code points certifies Python substring
membership. -/
theorem strIn_of_data_split (pat s : String) (a b : List Char)
    (h : s.data = a ++ (pat.data ++ b)) : strIn pat s = true := by
  unfold strIn containsPat
  rw [List.any_eq_true]
  refine ⟨a.length, ?_, ?_⟩
  · rw [List.mem_range]
    have hl : s.data.length = a.length + (pat.data.length + b.length) := by
      rw [h, List.length_append, List.length_append]
    omega
  · rw [h, List.drop_left]
    exact isPrefixOf_append_self _ _

/-- The message-copying loop of the chat-completion branch appends the
source list unchanged. -/
theorem foldl_copy_messages (l : List Msg) (init : List Msg) :
    l.foldl (fun acc m => acc ++ [{ role := m.role, content := m.content }]) init
      = init ++ l := by
  induction l generalizing init with
  | nil => simp
  | cons a t ih => simp [ih]

/-- The transcript-accumulation loop of the single-prompt branch renders the
source list in order. -/
theorem foldl_render_transcript (l : List Msg) (init : String) :
    l.foldl (fun acc m => acc ++ roleDisplay m.role ++ ": " ++ m.content ++ "\n")
        init
      = init ++ renderTranscript l := by
  induction l generalizing init with
  | nil => simp [renderTranscript]
  | cons a t ih =>
    rw [List.foldl_cons, ih]
    simp [renderTranscript, String.append_assoc]

/-- A one-element retrieval list with score 1 passes the relevance gate
(used to instantiate hypotheses at concrete inputs). -/
theorem relevant_singleton : is_relevant [(("chunk", "doc", (1 : ℚ)) : Chunk)] = true := by
  norm_num [is_relevant]

/-! ### Claims -/

/-- Claim C2: the relevance gate is a pure, deterministic function of the
retrieval scores only — the empty result sequence yields false, and a
non-empty sequence yields true iff the arithmetic mean of the similarity
scores is strictly greater than 0.25. -/
theorem c2_relevance_gate :
    is_relevant [] = false
  ∧ (∀ rs : List Chunk, rs ≠ [] →
      (is_relevant rs = true ↔
        (rs.map (fun r => r.2.2)).sum / (rs.length : ℚ) > 0.25))
  ∧ (∀ rs1 rs2 : List Chunk,
      rs1.map (fun r => r.2.2) = rs2.map (fun r => r.2.2) →
      is_relevant rs1 = is_relevant rs2) := by
  refine ⟨rfl, ?_, ?_⟩
  · intro rs h
    simp [is_relevant, h]
  · intro rs1 rs2 h
    have hlen : rs1.length = rs2.length := by
      have hc := congrArg List.length h
      simpa using hc
    have hsum : (rs1.map (fun r => r.2.2)).sum = (rs2.map (fun r => r.2.2)).sum :=
      congrArg List.sum h
    have hemp : rs1.isEmpty = rs2.isEmpty := by
      cases rs1 <;> cases rs2 <;> simp_all
    unfold is_relevant
    rw [hemp, hsum, hlen]

/-- Witness for C2 at a concrete one-element result list. -/
theorem c2_relevance_gate_witness :
    ([(("chunk", "doc", (1 : ℚ)) : Chunk)] ≠ ([] : List Chunk))
  ∧ (is_relevant [(("chunk", "doc", (1 : ℚ)) : Chunk)] = true ↔
      (([(("chunk", "doc", (1 : ℚ)) : Chunk)].map (fun r => r.2.2)).sum /
        (([(("chunk", "doc", (1 : ℚ)) : Chunk)].length : ℚ)) > 0.25)) :=
  ⟨by simp, c2_relevance_gate.2.1 [(("chunk", "doc", (1 : ℚ)) : Chunk)] (by simp)⟩

/-- Claim C5: a provider call that raises is never propagated by
_generate_text — for both configured providers the function returns the
apology string embedding at most the first 100 characters of the exception
text. -/
theorem c5_text_failure_recovered (template : String → String → String)
    (oc : List Msg → Except String String) (gc : String → Except String String)
    (question context language e : String) (history : List Msg)
    (hoc : ∀ msgs, oc msgs = Except.error e)
    (hgc : ∀ p, gc p = Except.error e) :
    generate_text template Provider.openai oc gc question context language history
      = "Oops! My wit machine broke down. Try asking again! 😅 (Error: " ++
          pyTake e 100 ++ ")"
  ∧ generate_text template Provider.gemini oc gc question context language history
      = "Oops! My wit machine broke down. Try asking again! 😅 (Error: " ++
          pyTake e 100 ++ ")"
  ∧ (pyTake e 100).length ≤ 100 := by
  refine ⟨?_, ?_, ?_⟩
  · simp [generate_text, hoc, apologyMessage]
  · simp [generate_text, hgc, apologyMessage]
  · have hl : (pyTake e 100).length = (e.data.take 100).length := rfl
    rw [hl, List.length_take]
    exact Nat.min_le_left _ _

/-- Witness for C5: both providers, with a concrete failing call. -/
theorem c5_text_failure_recovered_witness :
    generate_text (fun _ _ => "PROMPT") Provider.openai
        (fun _ => Except.error "boom") (fun _ => Except.error "boom")
        "q" "ctx" "en" []
      = "Oops! My wit machine broke down. Try asking again! 😅 (Error: " ++
          pyTake "boom" 100 ++ ")"
  ∧ generate_text (fun _ _ => "PROMPT") Provider.gemini
        (fun _ => Except.error "boom") (fun _ => Except.error "boom")
        "q" "ctx" "en" []
      = "Oops! My wit machine broke down. Try asking again! 😅 (Error: " ++
          pyTake "boom" 100 ++ ")"
  ∧ (pyTake "boom" 100).length ≤ 100 :=
  c5_text_failure_recovered (fun _ _ => "PROMPT")
    (fun _ => Except.error "boom") (fun _ => Except.error "boom")
    "q" "ctx" "en" "boom" [] (fun _ => rfl) (fun _ => rfl)

/-- Claim C7: for every non-English language code the composed prompt is the
template output with the explicit instruction naming the resolved display
language appended (and hence contains that display name as a substring);
for "en" no instruction is appended. -/
theorem c7_language_instruction (template : String → String → String)
    (context question lang : String) (hne : lang ≠ "en") :
    basePrompt template context question lang
      = template context question ++ criticalInstruction (displayName lang)
  ∧ strIn (displayName lang) (basePrompt template context question lang) = true
  ∧ basePrompt template context question "en" = template context question := by
  have h1 : basePrompt template context question lang
      = template context question ++ criticalInstruction (displayName lang) := by
    simp [basePrompt, langInstruction, hne]
  refine ⟨h1, ?_, ?_⟩
  · rw [h1]
    apply strIn_of_data_split _ _
      ((template context question).data ++
        "\n\n**CRITICAL: You MUST respond ENTIRELY in ".data)
      ((". Do NOT use English. Translate everything to " ++ displayName lang ++
        ".**").data)
    simp [criticalInstruction, String.data_append, List.append_assoc]
  · simp [basePrompt, langInstruction, bne_self_eq_false]

/-- Witness for C7 with the French language code. -/
theorem c7_language_instruction_witness :
    basePrompt (fun c q => c ++ q) "C" "Q" "fr"
      = "C" ++ "Q" ++ criticalInstruction (displayName "fr")
  ∧ strIn (displayName "fr") (basePrompt (fun c q => c ++ q) "C" "Q" "fr") = true
  ∧ basePrompt (fun c q => c ++ q) "C" "Q" "en" = "C" ++ "Q" :=
  c7_language_instruction (fun c q => c ++ q) "C" "Q" "fr" (by decide)

/-- Claim C10 (implicit): a language code that is neither "en" nor a key of
the supported-language table resolves to the display name "English", so the
composed prompt appends the instruction directing the model to respond
entirely in English even though a different language was requested. -/
theorem c10_unsupported_language_defaults_english (lang : String)
    (hne : lang ≠ "en")
    (hnk : SUPPORTED_LANGUAGES.find? (fun kv => kv.1 == lang) = none) :
    displayName lang = "English"
  ∧ ∀ template context question,
      basePrompt template context question lang
        = template context question ++ criticalInstruction "English" := by
  have hd : displayName lang = "English" := by simp [displayName, hnk]
  refine ⟨hd, ?_⟩
  intro template context question
  simp [basePrompt, langInstruction, hne, hd]

/-- Witness for C10 with the unsupported code "xx". -/
theorem c10_unsupported_language_defaults_english_witness :
    displayName "xx" = "English"
  ∧ basePrompt (fun c q => c ++ q) "C" "Q" "xx"
      = "C" ++ "Q" ++ criticalInstruction "English" :=
  ⟨(c10_unsupported_language_defaults_english "xx" (by decide) (by decide)).1,
   (c10_unsupported_language_defaults_english "xx" (by decide) (by decide)).2
     (fun c q => c ++ q) "C" "Q"⟩

/-- Claim C9: a transcription request whose audio file is below the
1000-byte minimum makes transcribe_audio return the "recording too short"
guidance string as a normal result, neither raising nor propagating an
error. -/
theorem c9_short_audio_guidance (audioPath : String) (fileSize : Nat)
    (ffmpegFound : Bool) (whisperResult : Except String String)
    (hsize : fileSize < 1000) :
    transcribe_audio true audioPath true fileSize ffmpegFound whisperResult
      = Except.ok "Recording too short or empty. Please speak clearly for at least 1-2 seconds." := by
  simp [transcribe_audio, hsize]

/-- Witness for C9: a 500-byte file. -/
theorem c9_short_audio_guidance_witness :
    transcribe_audio true "/tmp/clip.webm" true 500 true (Except.ok "hello")
      = Except.ok "Recording too short or empty. Please speak clearly for at least 1-2 seconds." :=
  c9_short_audio_guidance "/tmp/clip.webm" 500 true (Except.ok "hello") (by decide)

/-- Claim C6: the structured message list built for the chat-completion
provider and the synthesized transcript prepended for the single-prompt
provider carry identical content — both are generated, message by message
and in order, from the same last-6-messages window of the history, with the
same composed prompt as the new user turn. -/
theorem c6_provider_history_equivalence (history : List Msg) (prompt : String) :
    openaiMessages history prompt
      = pyTakeLast 6 history ++ [{ role := Role.user, content := prompt }]
  ∧ geminiPrompt history prompt
      = (if history.isEmpty then prompt
         else "\n\nPrevious conversation:\n"
           ++ renderTranscript (pyTakeLast 6 history) ++ "\n" ++ prompt) := by
  constructor
  · unfold openaiMessages
    rw [foldl_copy_messages]
    simp
  · unfold geminiPrompt
    by_cases h : history.isEmpty = true
    · simp [h]
    · simp only [h, Bool.false_eq_true, if_false]
      rw [foldl_render_transcript]

/-- Claim C8: audio cache-equivalence — two audio-generation calls whose
cleaned narration texts coincide compute the same content hash, hence the
same storage file name and the same returned /static/audio/<hash>.mp3 URL,
for every digest function, independently of which request issued them. -/
theorem c8_audio_cache_equivalence (md5Hex : String → String)
    (t1 t2 lang1 lang2 : String) (resp : HttpOutcome)
    (h : cleanTTSText t1 = cleanTTSText t2) :
    md5Hex (cleanTTSText t1) = md5Hex (cleanTTSText t2)
  ∧ generate_audio md5Hex true true t1 lang1 resp
      = generate_audio md5Hex true true t2 lang2 resp := by
  refine ⟨congrArg md5Hex h, ?_⟩
  simp [generate_audio, h]

/-- Witness for C8: an emoji-bearing answer and its pre-cleaned twin. -/
theorem c8_audio_cache_equivalence_witness :
    (fun s => s) (cleanTTSText "Once upon a time! 🙂")
      = (fun s => s) (cleanTTSText "Once upon a time! ")
  ∧ generate_audio (fun s => s) true true "Once upon a time! 🙂" "en" (Except.ok 200)
      = generate_audio (fun s => s) true true "Once upon a time! " "es" (Except.ok 200) :=
  c8_audio_cache_equivalence (fun s => s) "Once upon a time! 🙂"
    "Once upon a time! " "en" "es" (Except.ok 200) (by decide)

/-- Claim C1: failure isolation of media subtasks in the full pipeline —
with both media subtasks enabled and the retrieval relevant, an image
subtask that failed (it raised, or it returned None after a non-200 response
or a transport exception inside _generate_image) never prevents the
successful audio subtask's URL from being returned and never disturbs the
generated answer; generate_response is a total function, so it does not
raise, and its result carries image_url = none and the audio URL. -/
theorem c1_media_failure_isolation
    (template : String → String → String) (provider : Provider)
    (oc : List Msg → Except String String) (gc : String → Except String String)
    (md5Hex : String → String)
    (question language m url : String) (history : List Msg)
    (results : List Chunk) (resp : HttpOutcome)
    (imageTask fbImageTask fbAudioTask : TaskOutcome)
    (hrel : is_relevant results = true)
    (hresp : resp ≠ Except.ok 200)
    (himg : imageTask = TaskOutcome.exc m
      ∨ imageTask = TaskOutcome.val (generate_image md5Hex true question
          (generate_text template provider oc gc question
            (joinSep "\n\n" (results.map (fun r => r.1))) language history) resp)) :
    generate_response template provider oc gc question language history
        true true true true results imageTask (TaskOutcome.val (some url))
        fbImageTask fbAudioTask
      = { answer := generate_text template provider oc gc question
            (joinSep "\n\n" (results.map (fun r => r.1))) language history,
          image_url := none,
          audio_url := some url,
          is_relevant := true,
          sources := results.map (fun r =>
            ({ text := pyTake r.1 200 ++ "...", source := r.2.1,
               score := formatScore r.2.2 } : SourceEntry)) } := by
  have himgNone : absorbOutcome imageTask = none := by
    rcases himg with hcase | hcase
    · rw [hcase]
      rfl
    · rw [hcase]
      unfold generate_image
      cases resp with
      | error e => rfl
      | ok status =>
        have hs : status ≠ 200 := by
          intro hEq
          exact hresp (by rw [hEq])
        simp [absorbOutcome, hs]
  have habs : ∀ u : Option String, absorbOutcome (TaskOutcome.val u) = u :=
    fun u => rfl
  simp [generate_response, hrel, himgNone, habs]

/-- Witness for C1: one relevant chunk, a raising image task, a successful
audio task. -/
theorem c1_media_failure_isolation_witness :
    generate_response (fun _ _ => "T") Provider.unconfigured
        (fun _ => Except.error "e") (fun _ => Except.error "e")
        "q" "en" [] true true true true [(("chunk", "doc", (1 : ℚ)) : Chunk)]
        (TaskOutcome.exc "boom")
        (TaskOutcome.val (some "/static/audio/h.mp3"))
        (TaskOutcome.val none) (TaskOutcome.val none)
      = { answer := generate_text (fun _ _ => "T") Provider.unconfigured
            (fun _ => Except.error "e") (fun _ => Except.error "e") "q"
            (joinSep "\n\n" ([(("chunk", "doc", (1 : ℚ)) : Chunk)].map (fun r => r.1)))
            "en" [],
          image_url := none,
          audio_url := some "/static/audio/h.mp3",
          is_relevant := true,
          sources := [(("chunk", "doc", (1 : ℚ)) : Chunk)].map (fun r =>
            ({ text := pyTake r.1 200 ++ "...", source := r.2.1,
               score := formatScore r.2.2 } : SourceEntry)) } :=
  c1_media_failure_isolation (fun _ _ => "T") Provider.unconfigured
    (fun _ => Except.error "e") (fun _ => Except.error "e") (fun s => s)
    "q" "en" "boom" "/static/audio/h.mp3" [] [(("chunk", "doc", (1 : ℚ)) : Chunk)]
    (Except.ok 500) (TaskOutcome.exc "boom") (TaskOutcome.val none)
    (TaskOutcome.val none) relevant_singleton (by simp) (Or.inl rfl)

/-- The untrimmed transcript has two messages per turn. -/
theorem transcript_length (turns : List (String × String)) :
    (transcript turns).length = 2 * turns.length := by
  induction turns with
  | nil => rfl
  | cons t ts ih =>
    simp only [transcript] at ih ⊢
    simp [List.length_append] at ih ⊢
    omega

/-- Appending one turn appends its (user, assistant) pair to the transcript. -/
theorem transcript_append (ts : List (String × String)) (t : String × String) :
    transcript (ts ++ [t])
      = transcript ts ++ [({ role := Role.user, content := t.1 } : Msg),
                          ({ role := Role.assistant, content := t.2 } : Msg)] := by
  simp [transcript]

/-- One chat turn on a history that is a pair-aligned transcript suffix
yields the corresponding suffix with one more turn recorded. -/
theorem updateHistory_eq (M : Nat) (hM : 0 < M) (T : List Msg) (k : Nat)
    (hT : T.length = 2 * k) (q a : String) :
    updateHistory M (T.drop (2 * (k - M))) q a
      = (T ++ [({ role := Role.user, content := q } : Msg),
               ({ role := Role.assistant, content := a } : Msg)]).drop
          (2 * ((k + 1) - M)) := by
  have hlen : ((T.drop (2 * (k - M))) ++
        [({ role := Role.user, content := q } : Msg),
         ({ role := Role.assistant, content := a } : Msg)]).length
      = (2 * k - 2 * (k - M)) + 2 := by
    simp only [List.length_append, List.length_drop, List.length_cons,
      List.length_nil, hT]
  simp only [updateHistory]
  by_cases hk : k < M
  · have hcond : ¬ (((T.drop (2 * (k - M))) ++
        [({ role := Role.user, content := q } : Msg),
         ({ role := Role.assistant, content := a } : Msg)]).length > M * 2) := by
      rw [hlen]
      omega
    rw [if_neg hcond]
    have hd0 : 2 * (k - M) = 0 := by omega
    have hd1 : 2 * ((k + 1) - M) = 0 := by omega
    rw [hd0, hd1, List.drop_zero, List.drop_zero]
  · have hcond : ((T.drop (2 * (k - M))) ++
        [({ role := Role.user, content := q } : Msg),
         ({ role := Role.assistant, content := a } : Msg)]).length > M * 2 := by
      rw [hlen]
      omega
    rw [if_pos hcond]
    unfold pyTakeLast
    rw [if_neg (by omega : ¬ (M * 2 = 0)), hlen]
    have harith : 2 * k - 2 * (k - M) + 2 - M * 2 = 2 := by omega
    rw [harith, List.drop_append_eq_append_drop, List.drop_append_eq_append_drop]
    have h1 : (T.drop (2 * (k - M))).drop 2 = T.drop (2 * ((k + 1) - M)) := by
      rw [List.drop_drop]
      congr 1
      omega
    have h2 : (2 : Nat) - (T.drop (2 * (k - M))).length = 0 := by
      rw [List.length_drop, hT]
      omega
    have h3 : 2 * ((k + 1) - M) - T.length = 0 := by
      rw [hT]
      omega
    rw [h1, h2, h3]

/-- The stored session history is exactly the transcript of all turns with
the oldest complete pairs beyond the capacity dropped. -/
theorem runChat_eq_drop (maxHist : Nat) (hpos : 0 < maxHist)
    (turns : List (String × String)) :
    runChat maxHist turns
      = (transcript turns).drop (2 * (turns.length - maxHist)) := by
  induction turns using List.reverseRecOn with
  | nil => simp [runChat, transcript]
  | append_singleton ts t ih =>
    have hstep : runChat maxHist (ts ++ [t])
        = updateHistory maxHist (runChat maxHist ts) t.1 t.2 := by
      simp [runChat, List.foldl_append]
    rw [hstep, ih,
      updateHistory_eq maxHist hpos (transcript ts) ts.length
        (transcript_length ts) t.1 t.2,
      transcript_append]
    congr 1
    simp [List.length_append]

/-- Claim C3: bounded, pair-aligned session history — after k turns the
stored history is exactly the full transcript with the oldest complete
(user, assistant) pairs dropped (order preserved), its length is
min(2k, 2*MAX_CONVERSATION_HISTORY), and it is never of odd length. -/
theorem c3_bounded_pair_history (maxHist : Nat) (turns : List (String × String))
    (hpos : 0 < maxHist) :
    runChat maxHist turns
      = (transcript turns).drop (2 * (turns.length - maxHist))
  ∧ (runChat maxHist turns).length = min (2 * turns.length) (2 * maxHist)
  ∧ 2 ∣ (runChat maxHist turns).length := by
  have h := runChat_eq_drop maxHist hpos turns
  refine ⟨h, ?_, ?_⟩
  · rw [h, List.length_drop, transcript_length]
    omega
  · rw [h, List.length_drop, transcript_length]
    omega

/-- Witness for C3: capacity of 2 turns, 3 turns played. -/
theorem c3_bounded_pair_history_witness :
    runChat 2 [("q1", "a1"), ("q2", "a2"), ("q3", "a3")]
      = (transcript [("q1", "a1"), ("q2", "a2"), ("q3", "a3")]).drop
          (2 * ([("q1", "a1"), ("q2", "a2"), ("q3", "a3")].length - 2))
  ∧ (runChat 2 [("q1", "a1"), ("q2", "a2"), ("q3", "a3")]).length
      = min (2 * [("q1", "a1"), ("q2", "a2"), ("q3", "a3")].length) (2 * 2)
  ∧ 2 ∣ (runChat 2 [("q1", "a1"), ("q2", "a2"), ("q3", "a3")]).length :=
  c3_bounded_pair_history 2 [("q1", "a1"), ("q2", "a2"), ("q3", "a3")] (by decide)

/-- Collecting values through an if-guarded filterMap is filtering then
projecting. -/
theorem filterMap_eq_filter_map (l : List (String × String))
    (p : String × String → Bool) :
    l.filterMap (fun kv => if p kv then some kv.2 else none)
      = (l.filter p).map Prod.snd := by
  induction l with
  | nil => rfl
  | cons a t ih =>
    by_cases h : p a <;> simp [List.filter_cons, List.filterMap_cons, h, ih]

/-- Joining at most three strings of length at most 62 with ", " stays
within 190 characters. -/
theorem joinSep_three_le (l : List String) (hlen : l.length ≤ 3)
    (hb : ∀ x ∈ l, x.length ≤ 62) :
    (joinSep ", " l).length ≤ 190 := by
  have hsep : (", " : String).length = 2 := rfl
  cases l with
  | nil =>
    simp [joinSep]
  | cons x t =>
    cases t with
    | nil =>
      have hx := hb x (by simp)
      simp only [joinSep]
      omega
    | cons y t2 =>
      cases t2 with
      | nil =>
        have hx := hb x (by simp)
        have hy := hb y (by simp)
        simp only [joinSep, String.length_append]
        omega
      | cons z t3 =>
        cases t3 with
        | nil =>
          have hx := hb x (by simp)
          have hy := hb y (by simp)
          have hz := hb z (by simp)
          simp only [joinSep, String.length_append]
          omega
        | cons w t4 =>
          simp at hlen

/-- The prompt _create_image_prompt builds never exceeds the 800-character
budget: at most three scene phrases of at most 62 characters each, two
two-character separators, one separator and the fixed style suffix. -/
theorem create_image_prompt_le (question answer : String) :
    (create_image_prompt question answer).length ≤ maxImagePromptLen := by
  have hkv : ∀ kv ∈ keywords, kv.2.length ≤ 62 := by decide
  have hstyle : imageStyle.length = 183 := rfl
  have hsep : (", " : String).length = 2 := rfl
  simp only [create_image_prompt, maxImagePromptLen]
  by_cases hF : ((keywords.filter
      (fun kv => strIn kv.1 (pyLower (question ++ " " ++ answer)))).map
        Prod.snd).isEmpty = true
  · rw [if_pos hF]
    have hph : ("classic storybook scene" : String).length = 23 := rfl
    simp only [String.length_append]
    omega
  · rw [if_neg hF]
    have h3 : (((keywords.filter
        (fun kv => strIn kv.1 (pyLower (question ++ " " ++ answer)))).map
          Prod.snd).take 3).length ≤ 3 := by
      rw [List.length_take]
      exact Nat.min_le_left _ _
    have hmem : ∀ x ∈ ((keywords.filter
        (fun kv => strIn kv.1 (pyLower (question ++ " " ++ answer)))).map
          Prod.snd).take 3, x.length ≤ 62 := by
      intro x hx
      have hx2 : x ∈ (keywords.filter
          (fun kv => strIn kv.1 (pyLower (question ++ " " ++ answer)))).map
            Prod.snd := List.take_subset _ _ hx
      obtain ⟨kv, hkvmem, rfl⟩ := List.mem_map.mp hx2
      exact hkv kv (List.mem_of_mem_filter hkvmem)
    have hscene := joinSep_three_le _ h3 hmem
    simp only [String.length_append]
    omega

/-- Claim C4: the image prompt exactly as the spec words it — all matches
collected in table order from the lowercased concatenation, first three
joined, style suffix appended, placeholder when nothing matches, and the
final string truncated to the fixed maximum length — coincides with
_create_image_prompt on every input; the truncation is the identity because
the constructed prompt never exceeds the budget. -/
theorem c4_image_prompt_spec_eq (question answer : String) :
    specImagePrompt question answer = create_image_prompt question answer := by
  simp only [specImagePrompt, create_image_prompt]
  rw [filterMap_eq_filter_map]
  have hS : ∀ (A : List String) (p j : String),
      (if A = [] then p else j) = (if A.isEmpty then p else j) := by
    intro A p j
    cases A <;> simp
  rw [hS]
  exact pyTake_of_le _ _ (create_image_prompt_le question answer)
